import Mathlib

/-!
Shallow embedding of the ledger-posting core of the FinancialManager
repository (server/storage.ts `MemStorage` and the route handlers of
`registerRoutes`: POST /api/sales, POST /api/collections,
POST /api/sales-returns), together with proofs of the specification
claims about it.

Monetary amounts are decimal strings in the source, parsed with
`parseFloat` and written back with `toString`; per §3 of the spec they
carry exact base-10 decimal values, so they are modelled here as exact
rationals (`ℚ`).  `Map<number, T>` collections are modelled as lists in
insertion order (a `Map` keeps insertion order and one entry per key);
the `Date` objects are kept as the raw date strings, since no claim
depends on date arithmetic.  JavaScript `x || null` / `x ?? null`
defaults are modelled with `Option`.
-/

namespace Accounting

/-- An account of the chart of accounts (shared/schema.ts `accounts`):
id, unique code, display name, account type string, running balance. -/
structure Account where
  id : Nat
  code : String
  name : String
  type : String
  balance : ℚ
deriving DecidableEq

/-- A transaction header (shared/schema.ts `transactions`); the
`createdAt` wall-clock timestamp is omitted as no logic reads it. -/
structure Transaction where
  id : Nat
  date : String
  reference : String
  description : String
  type : String
  totalAmount : ℚ
deriving DecidableEq

/-- A journal entry / posting line (shared/schema.ts `journalEntries`). -/
structure JournalEntry where
  id : Nat
  transactionId : Option Nat
  accountId : Option Nat
  accountCode : String
  accountName : String
  debitAmount : ℚ
  creditAmount : ℚ
  date : String
  reference : String
  description : String
deriving DecidableEq

/-- Insert shape for a journal entry (schema insert type: id omitted,
debit/credit optional with default "0", transactionId/accountId
nullable). -/
structure InsertJournalEntry where
  transactionId : Option Nat
  accountId : Option Nat
  accountCode : String
  accountName : String
  debitAmount : Option ℚ
  creditAmount : Option ℚ
  date : String
  reference : String
  description : String
deriving DecidableEq

/-- Insert shape for a transaction (id and createdAt omitted). -/
structure InsertTransaction where
  date : String
  reference : String
  description : String
  type : String
  totalAmount : ℚ
deriving DecidableEq

/-- A sales invoice (shared/schema.ts `salesInvoices`). `paidAmount` is
nullable in the schema (`paidAmount ?? null` in createSalesInvoice). -/
structure SalesInvoice where
  id : Nat
  invoiceNumber : String
  customerName : String
  date : String
  paymentMethod : String
  totalAmount : ℚ
  paidAmount : Option ℚ
  outstandingAmount : ℚ
  status : String
deriving DecidableEq

/-- Insert shape for a sales invoice (id omitted; paidAmount and status
optional, status defaulting to "Open" in createSalesInvoice). -/
structure InsertSalesInvoice where
  invoiceNumber : String
  customerName : String
  date : String
  paymentMethod : String
  totalAmount : ℚ
  paidAmount : Option ℚ
  outstandingAmount : ℚ
  status : Option String
deriving DecidableEq

/-- A sales line item (shared/schema.ts `salesItems`). -/
structure SalesItem where
  id : Nat
  invoiceId : Option Nat
  description : String
  quantity : ℚ
  unitPrice : ℚ
  cogsUnit : ℚ
  totalAmount : ℚ
deriving DecidableEq

/-- Insert shape for a sales item. -/
structure InsertSalesItem where
  invoiceId : Option Nat
  description : String
  quantity : ℚ
  unitPrice : ℚ
  cogsUnit : ℚ
  totalAmount : ℚ
deriving DecidableEq

/-- A collection record (shared/schema.ts `collections`). -/
structure Collection where
  id : Nat
  invoiceId : Option Nat
  date : String
  amount : ℚ
  paymentMethod : String
  notes : Option String
  reference : String
deriving DecidableEq

/-- Insert shape for a collection. -/
structure InsertCollection where
  invoiceId : Option Nat
  date : String
  amount : ℚ
  paymentMethod : String
  notes : Option String
  reference : String
deriving DecidableEq

/-- A sales return header (shared/schema.ts `salesReturns`). -/
structure SalesReturn where
  id : Nat
  returnNumber : String
  invoiceId : Option Nat
  date : String
  totalAmount : ℚ
  returnType : String
  reason : Option String
deriving DecidableEq

/-- Insert shape for a sales return. -/
structure InsertSalesReturn where
  returnNumber : String
  invoiceId : Option Nat
  date : String
  totalAmount : ℚ
  returnType : String
  reason : Option String
deriving DecidableEq

/-- A return line item (shared/schema.ts `returnItems`). -/
structure ReturnItem where
  id : Nat
  returnId : Option Nat
  description : String
  quantity : ℚ
  unitPrice : ℚ
  cogsUnit : ℚ
  totalAmount : ℚ
deriving DecidableEq

/-- Insert shape for a return item. -/
structure InsertReturnItem where
  returnId : Option Nat
  description : String
  quantity : ℚ
  unitPrice : ℚ
  cogsUnit : ℚ
  totalAmount : ℚ
deriving DecidableEq

/-- The in-memory store (server/storage.ts `MemStorage`): one collection
per entity type, in insertion order, plus the per-type id counters. -/
structure MemStorage where
  accounts : List Account
  transactions : List Transaction
  journalEntries : List JournalEntry
  salesInvoices : List SalesInvoice
  salesItems : List SalesItem
  collections : List Collection
  salesReturns : List SalesReturn
  returnItems : List ReturnItem
  currentAccountId : Nat
  currentTransactionId : Nat
  currentJournalEntryId : Nat
  currentSalesInvoiceId : Nat
  currentSalesItemId : Nat
  currentCollectionId : Nat
  currentSalesReturnId : Nat
  currentReturnItemId : Nat
deriving DecidableEq

/-- The seeded chart of eight accounts (`initializeChartOfAccounts`),
with ids assigned from 1 by the incrementing account counter. -/
def initialAccounts : List Account :=
  [ { id := 1, code := "1001", name := "Cash", type := "asset", balance := 2375000 },
    { id := 2, code := "1002", name := "Accounts Receivable", type := "asset", balance := 0 },
    { id := 3, code := "1003", name := "Inventory", type := "asset", balance := 450000 },
    { id := 4, code := "2001", name := "Accounts Payable", type := "liability", balance := 0 },
    { id := 5, code := "3001", name := "Share Capital - Ordinary", type := "equity", balance := 2825000 },
    { id := 6, code := "4001", name := "Sales Revenue", type := "revenue", balance := 0 },
    { id := 7, code := "4002", name := "Sales Return and Allowances", type := "revenue", balance := 0 },
    { id := 8, code := "5001", name := "Cost of Goods Sold", type := "expense", balance := 0 } ]

/-- A freshly constructed store (`new MemStorage()`): the constructor
runs `initializeChartOfAccounts`, leaving every other collection empty
and the account counter at 9. -/
def MemStorage.init : MemStorage :=
  { accounts := initialAccounts
    transactions := []
    journalEntries := []
    salesInvoices := []
    salesItems := []
    collections := []
    salesReturns := []
    returnItems := []
    currentAccountId := 9
    currentTransactionId := 1
    currentJournalEntryId := 1
    currentSalesInvoiceId := 1
    currentSalesItemId := 1
    currentCollectionId := 1
    currentSalesReturnId := 1
    currentReturnItemId := 1 }

/-- Whether some account in the list carries the given code
(`getAccountByCode(code)` succeeding). -/
def hasAccount (l : List Account) (code : String) : Bool :=
  (l.find? (fun a => a.code == code)).isSome

/-- Balance read pattern of the source:
`parseFloat(account?.balance || '0')` — the balance of the first
account with the code, or 0 when none matches. -/
def balOf (l : List Account) (code : String) : ℚ :=
  match l.find? (fun a => a.code == code) with
  | some a => a.balance
  | none => 0

/-- Replace the balance of the first account carrying the code
(`updateAccountBalance` body: look up by code, and when found, write
the new balance back; silently a no-op when no account matches). -/
def setBalanceByCode : List Account → String → ℚ → List Account
  | [], _, _ => []
  | a :: rest, code, balance =>
    if a.code == code then { a with balance := balance } :: rest
    else a :: setBalanceByCode rest code balance

/-- `MemStorage.getAccountByCode`: first account whose code matches. -/
def MemStorage.getAccountByCode (s : MemStorage) (code : String) : Option Account :=
  s.accounts.find? (fun a => a.code == code)

/-- `MemStorage.updateAccountBalance(code, balance)`: sets the balance
of the account with the code when it exists, otherwise does nothing. -/
def MemStorage.updateAccountBalance (s : MemStorage) (code : String) (balance : ℚ) : MemStorage :=
  { s with accounts := setBalanceByCode s.accounts code balance }

/-- Balance of the account with the given code in the store, read the
way every call site does (`parseFloat(x?.balance || '0')`). -/
def MemStorage.balanceOf (s : MemStorage) (code : String) : ℚ :=
  balOf s.accounts code

/-- `MemStorage.createTransaction`: assign the next transaction id,
store the record, bump the counter. -/
def MemStorage.createTransaction (s : MemStorage) (t : InsertTransaction) :
    Transaction × MemStorage :=
  let newTransaction : Transaction :=
    { id := s.currentTransactionId, date := t.date, reference := t.reference,
      description := t.description, type := t.type, totalAmount := t.totalAmount }
  (newTransaction,
   { s with transactions := s.transactions ++ [newTransaction],
            currentTransactionId := s.currentTransactionId + 1 })

/-- The journal entry built by `createJournalEntry` for a given assigned
id: optional debit/credit default to 0 (source `entry.debitAmount || "0"`).
JavaScript `entry.transactionId || null` also collapses the number 0 to
null; transaction ids start at 1 so it is the identity here. -/
def buildJournalEntry (n : Nat) (e : InsertJournalEntry) : JournalEntry :=
  { id := n, transactionId := e.transactionId, accountId := e.accountId,
    accountCode := e.accountCode, accountName := e.accountName,
    debitAmount := e.debitAmount.getD 0, creditAmount := e.creditAmount.getD 0,
    date := e.date, reference := e.reference, description := e.description }

/-- `MemStorage.createJournalEntry`: assign the next id, store, bump. -/
def MemStorage.createJournalEntry (s : MemStorage) (e : InsertJournalEntry) :
    JournalEntry × MemStorage :=
  let newEntry := buildJournalEntry s.currentJournalEntryId e
  (newEntry,
   { s with journalEntries := s.journalEntries ++ [newEntry],
            currentJournalEntryId := s.currentJournalEntryId + 1 })

/-- `MemStorage.createJournalEntries`: the for-loop that persists each
entry of the batch in order, collecting the created records.  Note that
the source performs no balance check here: every batch is persisted. -/
def MemStorage.createJournalEntries (s : MemStorage) :
    List InsertJournalEntry → List JournalEntry × MemStorage
  | [] => ([], s)
  | e :: rest =>
    let (newEntry, s') := s.createJournalEntry e
    let (newEntries, s'') := s'.createJournalEntries rest
    (newEntry :: newEntries, s'')

/-- `MemStorage.createSalesInvoice`: assign the next invoice id, apply
the `?? null` / `?? "Open"` defaults, store, bump. -/
def MemStorage.createSalesInvoice (s : MemStorage) (invoice : InsertSalesInvoice) :
    SalesInvoice × MemStorage :=
  let newInvoice : SalesInvoice :=
    { id := s.currentSalesInvoiceId, invoiceNumber := invoice.invoiceNumber,
      customerName := invoice.customerName, date := invoice.date,
      paymentMethod := invoice.paymentMethod, totalAmount := invoice.totalAmount,
      paidAmount := invoice.paidAmount, outstandingAmount := invoice.outstandingAmount,
      status := invoice.status.getD "Open" }
  (newInvoice,
   { s with salesInvoices := s.salesInvoices ++ [newInvoice],
            currentSalesInvoiceId := s.currentSalesInvoiceId + 1 })

/-- `MemStorage.getSalesInvoiceById`: the `Map.get(id)` lookup, as first
(and only, ids being unique) list element with the id. -/
def MemStorage.getSalesInvoiceById (s : MemStorage) (id : Nat) : Option SalesInvoice :=
  s.salesInvoices.find? (fun inv => inv.id == id)

/-- Update in place the payment fields of the invoice with the id
(`updateSalesInvoicePayment` body; no-op when the id is absent). -/
def setInvoicePayment : List SalesInvoice → Nat → ℚ → ℚ → String → List SalesInvoice
  | [], _, _, _, _ => []
  | inv :: rest, id, paid, outstanding, status =>
    if inv.id == id then
      { inv with paidAmount := some paid, outstandingAmount := outstanding,
                 status := status } :: rest
    else inv :: setInvoicePayment rest id paid outstanding status

/-- `MemStorage.updateSalesInvoicePayment(id, paidAmount,
outstandingAmount, status)`. -/
def MemStorage.updateSalesInvoicePayment (s : MemStorage) (id : Nat)
    (paidAmount outstandingAmount : ℚ) (status : String) : MemStorage :=
  { s with salesInvoices := setInvoicePayment s.salesInvoices id paidAmount outstandingAmount status }

/-- `MemStorage.createSalesItem`. -/
def MemStorage.createSalesItem (s : MemStorage) (item : InsertSalesItem) :
    SalesItem × MemStorage :=
  let newItem : SalesItem :=
    { id := s.currentSalesItemId, invoiceId := item.invoiceId,
      description := item.description, quantity := item.quantity,
      unitPrice := item.unitPrice, cogsUnit := item.cogsUnit,
      totalAmount := item.totalAmount }
  (newItem,
   { s with salesItems := s.salesItems ++ [newItem],
            currentSalesItemId := s.currentSalesItemId + 1 })

/-- `MemStorage.createCollection`. -/
def MemStorage.createCollection (s : MemStorage) (c : InsertCollection) :
    Collection × MemStorage :=
  let newCollection : Collection :=
    { id := s.currentCollectionId, invoiceId := c.invoiceId, date := c.date,
      amount := c.amount, paymentMethod := c.paymentMethod,
      notes := c.notes, reference := c.reference }
  (newCollection,
   { s with collections := s.collections ++ [newCollection],
            currentCollectionId := s.currentCollectionId + 1 })

/-- `MemStorage.createSalesReturn`. -/
def MemStorage.createSalesReturn (s : MemStorage) (r : InsertSalesReturn) :
    SalesReturn × MemStorage :=
  let newReturn : SalesReturn :=
    { id := s.currentSalesReturnId, returnNumber := r.returnNumber,
      invoiceId := r.invoiceId, date := r.date, totalAmount := r.totalAmount,
      returnType := r.returnType, reason := r.reason }
  (newReturn,
   { s with salesReturns := s.salesReturns ++ [newReturn],
            currentSalesReturnId := s.currentSalesReturnId + 1 })

/-- `MemStorage.createReturnItem`. -/
def MemStorage.createReturnItem (s : MemStorage) (item : InsertReturnItem) :
    ReturnItem × MemStorage :=
  let newItem : ReturnItem :=
    { id := s.currentReturnItemId, returnId := item.returnId,
      description := item.description, quantity := item.quantity,
      unitPrice := item.unitPrice, cogsUnit := item.cogsUnit,
      totalAmount := item.totalAmount }
  (newItem,
   { s with returnItems := s.returnItems ++ [newItem],
            currentReturnItemId := s.currentReturnItemId + 1 })

/-- The balance sheet record (shared/schema.ts `BalanceSheet`). -/
structure BalanceSheet where
  cash : ℚ
  accountsReceivable : ℚ
  inventory : ℚ
  totalAssets : ℚ
  accountsPayable : ℚ
  totalLiabilities : ℚ
  shareCapital : ℚ
  totalEquity : ℚ
  totalLiabEquity : ℚ
deriving DecidableEq

/-- `MemStorage.getBalanceSheet`: read the five balance-sheet accounts,
total the assets, take liabilities = accounts payable and equity =
share capital (which already absorbs net income). -/
def MemStorage.getBalanceSheet (s : MemStorage) : BalanceSheet :=
  let cashBalance := s.balanceOf "1001"
  let arBalance := s.balanceOf "1002"
  let inventoryBalance := s.balanceOf "1003"
  let apBalance := s.balanceOf "2001"
  let scBalance := s.balanceOf "3001"
  let totalAssets := cashBalance + arBalance + inventoryBalance
  let totalLiabilities := apBalance
  let totalEquity := scBalance
  { cash := cashBalance, accountsReceivable := arBalance,
    inventory := inventoryBalance, totalAssets := totalAssets,
    accountsPayable := apBalance, totalLiabilities := totalLiabilities,
    shareCapital := scBalance, totalEquity := totalEquity,
    totalLiabEquity := totalLiabilities + totalEquity }

/-- A line item of the sale/return request bodies (the two zod item
schemas are identical). -/
structure SaleItemInput where
  description : String
  quantity : ℚ
  unitPrice : ℚ
  cogsUnit : ℚ
deriving DecidableEq

/-- Body of POST /api/sales after JSON decoding (`salesFormSchema`). -/
structure SaleInput where
  invoiceNumber : String
  customerName : String
  date : String
  paymentMethod : String
  items : List SaleItemInput
deriving DecidableEq

/-- Body of POST /api/collections (`collectionFormSchema`). -/
structure CollectionInput where
  invoiceId : Nat
  date : String
  amount : ℚ
  paymentMethod : String
  notes : Option String
deriving DecidableEq

/-- Body of POST /api/sales-returns (`returnFormSchema`). -/
structure ReturnInput where
  returnNumber : String
  invoiceId : Nat
  date : String
  returnType : String
  reason : Option String
  items : List SaleItemInput
deriving DecidableEq

/-- Item validity per the zod item schema: non-empty description and
positive quantity, unitPrice and cogsUnit. -/
def SaleItemInput.valid (i : SaleItemInput) : Bool :=
  decide (1 ≤ i.description.length) && decide (0 < i.quantity) &&
  decide (0 < i.unitPrice) && decide (0 < i.cogsUnit)

/-- `salesFormSchema.parse` succeeding: non-empty strings, payment
method in the enum, at least one item, all items valid. -/
def SaleInput.valid (d : SaleInput) : Bool :=
  decide (1 ≤ d.invoiceNumber.length) && decide (1 ≤ d.customerName.length) &&
  (d.paymentMethod == "cash" || d.paymentMethod == "credit") &&
  decide (1 ≤ d.items.length) && d.items.all SaleItemInput.valid

/-- `collectionFormSchema.parse` succeeding: a positive amount (the
only constrained field). -/
def CollectionInput.valid (d : CollectionInput) : Bool :=
  decide (0 < d.amount)

/-- `returnFormSchema.parse` succeeding. -/
def ReturnInput.valid (d : ReturnInput) : Bool :=
  decide (1 ≤ d.returnNumber.length) &&
  (d.returnType == "return" || d.returnType == "allowance") &&
  decide (1 ≤ d.items.length) && d.items.all SaleItemInput.valid

/-- The error responses the three POST handlers can return before any
mutation: 400 on a zod parse failure, 404 on an unknown invoice, 400 on
a collection exceeding the outstanding balance. -/
inductive ApiError where
  | validationFailed
  | notFound
  | exceedsOutstanding
deriving DecidableEq

/-- The `for (const item of data.items)` loop of POST /api/sales:
persist one sales item per input line. -/
def createSaleItemRecords (invoiceId : Nat) (s : MemStorage) :
    List SaleItemInput → MemStorage
  | [] => s
  | item :: rest =>
    createSaleItemRecords invoiceId
      ((s.createSalesItem
        { invoiceId := some invoiceId, description := item.description,
          quantity := item.quantity, unitPrice := item.unitPrice,
          cogsUnit := item.cogsUnit,
          totalAmount := item.quantity * item.unitPrice }).2) rest

/-- The `for (const item of data.items)` loop of POST /api/sales-returns:
persist one return item per input line. -/
def createReturnItemRecords (returnId : Nat) (s : MemStorage) :
    List SaleItemInput → MemStorage
  | [] => s
  | item :: rest =>
    createReturnItemRecords returnId
      ((s.createReturnItem
        { returnId := some returnId, description := item.description,
          quantity := item.quantity, unitPrice := item.unitPrice,
          cogsUnit := item.cogsUnit,
          totalAmount := item.quantity * item.unitPrice }).2) rest

/-- The journal batch POST /api/sales builds: debit Cash (cash sale) or
Accounts Receivable (credit sale), credit Sales Revenue, debit Cost of
Goods Sold, credit Inventory. -/
def saleJournalInserts (tid : Nat) (d : SaleInput) (totalAmount totalCOGS : ℚ) :
    List InsertJournalEntry :=
  (if d.paymentMethod == "cash" then
    [ { transactionId := some tid, accountId := none, accountCode := "1001",
        accountName := "Cash", debitAmount := some totalAmount,
        creditAmount := some 0, date := d.date, reference := d.invoiceNumber,
        description := "Sale to " ++ d.customerName } ]
  else
    [ { transactionId := some tid, accountId := none, accountCode := "1002",
        accountName := "Accounts Receivable", debitAmount := some totalAmount,
        creditAmount := some 0, date := d.date, reference := d.invoiceNumber,
        description := "Sale to " ++ d.customerName } ]) ++
  [ { transactionId := some tid, accountId := none, accountCode := "4001",
      accountName := "Sales Revenue", debitAmount := some 0,
      creditAmount := some totalAmount, date := d.date,
      reference := d.invoiceNumber,
      description := "Sale to " ++ d.customerName },
    { transactionId := some tid, accountId := none, accountCode := "5001",
      accountName := "Cost of Goods Sold", debitAmount := some totalCOGS,
      creditAmount := some 0, date := d.date, reference := d.invoiceNumber,
      description := "COGS for sale to " ++ d.customerName },
    { transactionId := some tid, accountId := none, accountCode := "1003",
      accountName := "Inventory", debitAmount := some 0,
      creditAmount := some totalCOGS, date := d.date,
      reference := d.invoiceNumber,
      description := "COGS for sale to " ++ d.customerName } ]

/-- POST /api/sales: validate, create the invoice (cash sales are born
fully paid, credit sales fully outstanding), persist the items, create
the transaction, append the four-line journal batch, then apply the
account-balance updates, ending with the Share-Capital net-income
roll-up that has no journal line. -/
def postSale (s : MemStorage) (data : SaleInput) :
    Except ApiError (MemStorage × SalesInvoice) :=
  if data.valid then
    let totalAmount := (data.items.map (fun i => i.quantity * i.unitPrice)).sum
    let totalCOGS := (data.items.map (fun i => i.quantity * i.cogsUnit)).sum
    let r1 := s.createSalesInvoice
      { invoiceNumber := data.invoiceNumber, customerName := data.customerName,
        date := data.date, totalAmount := totalAmount,
        paidAmount := some (if data.paymentMethod == "cash" then totalAmount else 0),
        outstandingAmount := if data.paymentMethod == "cash" then 0 else totalAmount,
        paymentMethod := data.paymentMethod,
        status := some (if data.paymentMethod == "cash" then "paid" else "open") }
    let invoice := r1.1
    let s := r1.2
    let s := createSaleItemRecords invoice.id s data.items
    let r2 := s.createTransaction
      { date := data.date, reference := data.invoiceNumber,
        description := "Sale to " ++ data.customerName, type := "sale",
        totalAmount := totalAmount }
    let transaction := r2.1
    let s := r2.2
    let s := (s.createJournalEntries (saleJournalInserts transaction.id data totalAmount totalCOGS)).2
    let s := if data.paymentMethod == "cash" then
        s.updateAccountBalance "1001" (s.balanceOf "1001" + totalAmount)
      else
        s.updateAccountBalance "1002" (s.balanceOf "1002" + totalAmount)
    let s := s.updateAccountBalance "1003" (s.balanceOf "1003" - totalCOGS)
    let s := s.updateAccountBalance "4001" (s.balanceOf "4001" + totalAmount)
    let s := s.updateAccountBalance "5001" (s.balanceOf "5001" + totalCOGS)
    let netIncome := totalAmount - totalCOGS
    let s := s.updateAccountBalance "3001" (s.balanceOf "3001" + netIncome)
    .ok (s, invoice)
  else .error .validationFailed

/-- The two-line journal batch POST /api/collections builds: debit
Cash, credit Accounts Receivable. -/
def collectionJournalInserts (tid : Nat) (invoice : SalesInvoice)
    (data : CollectionInput) : List InsertJournalEntry :=
  [ { transactionId := some tid, accountId := none, accountCode := "1001",
      accountName := "Cash", debitAmount := some data.amount,
      creditAmount := some 0, date := data.date,
      reference := "COL-" ++ invoice.invoiceNumber,
      description := "Collection from " ++ invoice.customerName },
    { transactionId := some tid, accountId := none, accountCode := "1002",
      accountName := "Accounts Receivable", debitAmount := some 0,
      creditAmount := some data.amount, date := data.date,
      reference := "COL-" ++ invoice.invoiceNumber,
      description := "Collection from " ++ invoice.customerName } ]

/-- POST /api/collections: validate, look up the invoice (404 when
absent), reject amounts above the outstanding balance before any
mutation, then create the collection, update the invoice payment
fields (status paid when outstanding reaches 0, else partial), create
the transaction, append the two journal lines and move the amount from
Accounts Receivable to Cash. -/
def postCollection (s : MemStorage) (data : CollectionInput) :
    Except ApiError (MemStorage × Collection) :=
  if data.valid then
    match s.getSalesInvoiceById data.invoiceId with
    | none => .error .notFound
    | some invoice =>
      let currentOutstanding := invoice.outstandingAmount
      if currentOutstanding < data.amount then .error .exceedsOutstanding
      else
        let r1 := s.createCollection
          { invoiceId := some data.invoiceId, date := data.date,
            amount := data.amount, paymentMethod := data.paymentMethod,
            notes := some (data.notes.getD ""),
            reference := "COL-" ++ invoice.invoiceNumber }
        let collection := r1.1
        let s := r1.2
        let newPaidAmount := invoice.paidAmount.getD 0 + data.amount
        let newOutstandingAmount := currentOutstanding - data.amount
        let newStatus := if newOutstandingAmount = 0 then "paid" else "partial"
        let s := s.updateSalesInvoicePayment data.invoiceId newPaidAmount newOutstandingAmount newStatus
        let r2 := s.createTransaction
          { date := data.date, reference := "COL-" ++ invoice.invoiceNumber,
            description := "Collection from " ++ invoice.customerName,
            type := "collection", totalAmount := data.amount }
        let transaction := r2.1
        let s := r2.2
        let s := (s.createJournalEntries (collectionJournalInserts transaction.id invoice data)).2
        let s := s.updateAccountBalance "1001" (s.balanceOf "1001" + data.amount)
        let s := s.updateAccountBalance "1002" (s.balanceOf "1002" - data.amount)
        .ok (s, collection)
  else .error .validationFailed

/-- The journal batch POST /api/sales-returns builds: debit Sales
Return and Allowances, credit Cash (when the original invoice was paid
cash) or Accounts Receivable, debit Inventory, credit Cost of Goods
Sold. -/
def returnJournalInserts (tid : Nat) (invoice : SalesInvoice) (data : ReturnInput)
    (totalReturnAmount totalReturnCOGS : ℚ) : List InsertJournalEntry :=
  [ { transactionId := some tid, accountId := none, accountCode := "4002",
      accountName := "Sales Return and Allowances",
      debitAmount := some totalReturnAmount, creditAmount := some 0,
      date := data.date, reference := data.returnNumber,
      description := "Return from " ++ invoice.customerName } ] ++
  (if invoice.paymentMethod == "cash" then
    [ { transactionId := some tid, accountId := none, accountCode := "1001",
        accountName := "Cash", debitAmount := some 0,
        creditAmount := some totalReturnAmount, date := data.date,
        reference := data.returnNumber,
        description := "Return from " ++ invoice.customerName } ]
  else
    [ { transactionId := some tid, accountId := none, accountCode := "1002",
        accountName := "Accounts Receivable", debitAmount := some 0,
        creditAmount := some totalReturnAmount, date := data.date,
        reference := data.returnNumber,
        description := "Return from " ++ invoice.customerName } ]) ++
  [ { transactionId := some tid, accountId := none, accountCode := "1003",
      accountName := "Inventory", debitAmount := some totalReturnCOGS,
      creditAmount := some 0, date := data.date,
      reference := data.returnNumber,
      description := "Return inventory from " ++ invoice.customerName },
    { transactionId := some tid, accountId := none, accountCode := "5001",
      accountName := "Cost of Goods Sold", debitAmount := some 0,
      creditAmount := some totalReturnCOGS, date := data.date,
      reference := data.returnNumber,
      description := "Return COGS from " ++ invoice.customerName } ]

/-- POST /api/sales-returns: validate, look up the invoice (404 when
absent), create the return and its items, create the transaction,
append the four-line journal batch, then apply the balance updates,
ending with the Share-Capital reduction by returnAmount − returnCogs
that has no journal line.  The invoice payment fields are never
touched. -/
def postReturn (s : MemStorage) (data : ReturnInput) :
    Except ApiError (MemStorage × SalesReturn) :=
  if data.valid then
    match s.getSalesInvoiceById data.invoiceId with
    | none => .error .notFound
    | some invoice =>
      let totalReturnAmount := (data.items.map (fun i => i.quantity * i.unitPrice)).sum
      let totalReturnCOGS := (data.items.map (fun i => i.quantity * i.cogsUnit)).sum
      let r1 := s.createSalesReturn
        { returnNumber := data.returnNumber, invoiceId := some data.invoiceId,
          date := data.date, totalAmount := totalReturnAmount,
          returnType := data.returnType, reason := some (data.reason.getD "") }
      let salesReturn := r1.1
      let s := r1.2
      let s := createReturnItemRecords salesReturn.id s data.items
      let r2 := s.createTransaction
        { date := data.date, reference := data.returnNumber,
          description := "Return from " ++ invoice.customerName,
          type := "return", totalAmount := totalReturnAmount }
      let transaction := r2.1
      let s := r2.2
      let s := (s.createJournalEntries (returnJournalInserts transaction.id invoice data totalReturnAmount totalReturnCOGS)).2
      let s := if invoice.paymentMethod == "cash" then
          s.updateAccountBalance "1001" (s.balanceOf "1001" - totalReturnAmount)
        else
          s.updateAccountBalance "1002" (s.balanceOf "1002" - totalReturnAmount)
      let s := s.updateAccountBalance "1003" (s.balanceOf "1003" + totalReturnCOGS)
      let s := s.updateAccountBalance "4002" (s.balanceOf "4002" + totalReturnAmount)
      let s := s.updateAccountBalance "5001" (s.balanceOf "5001" - totalReturnCOGS)
      let netReduction := totalReturnAmount - totalReturnCOGS
      let s := s.updateAccountBalance "3001" (s.balanceOf "3001" - netReduction)
      .ok (s, salesReturn)
  else .error .validationFailed

/-- A business event submitted through the HTTP layer. -/
inductive Event where
  | sale (data : SaleInput)
  | collection (data : CollectionInput)
  | salesReturn (data : ReturnInput)
deriving DecidableEq

/-- One request against the store: a successful handler run replaces
the state, a rejected one leaves it untouched (every guard in the three
handlers fires before the first mutation). -/
def step (s : MemStorage) : Event → MemStorage
  | .sale d =>
    match postSale s d with
    | .ok (s', _) => s'
    | .error _ => s
  | .collection d =>
    match postCollection s d with
    | .ok (s', _) => s'
    | .error _ => s
  | .salesReturn d =>
    match postReturn s d with
    | .ok (s', _) => s'
    | .error _ => s

/-- The store reached by processing a sequence of business events
against a freshly constructed store. -/
def run (es : List Event) : MemStorage :=
  es.foldl step MemStorage.init

/-- The journal entries `createJournalEntries` builds from a batch,
with ids assigned consecutively from the given counter. -/
def mkJournalEntries (n : Nat) : List InsertJournalEntry → List JournalEntry
  | [] => []
  | e :: rest => buildJournalEntry n e :: mkJournalEntries (n + 1) rest

/-- The sales items the sale-items loop builds. -/
def mkSalesItems (n invoiceId : Nat) : List SaleItemInput → List SalesItem
  | [] => []
  | item :: rest =>
    { id := n, invoiceId := some invoiceId, description := item.description,
      quantity := item.quantity, unitPrice := item.unitPrice,
      cogsUnit := item.cogsUnit,
      totalAmount := item.quantity * item.unitPrice } :: mkSalesItems (n + 1) invoiceId rest

/-- The return items the return-items loop builds. -/
def mkReturnItems (n returnId : Nat) : List SaleItemInput → List ReturnItem
  | [] => []
  | item :: rest =>
    { id := n, returnId := some returnId, description := item.description,
      quantity := item.quantity, unitPrice := item.unitPrice,
      cogsUnit := item.cogsUnit,
      totalAmount := item.quantity * item.unitPrice } :: mkReturnItems (n + 1) returnId rest

/-- All eight seeded account codes are present in the ledger. -/
def HasChart (s : MemStorage) : Bool :=
  hasAccount s.accounts "1001" && hasAccount s.accounts "1002" &&
  hasAccount s.accounts "1003" && hasAccount s.accounts "2001" &&
  hasAccount s.accounts "3001" && hasAccount s.accounts "4001" &&
  hasAccount s.accounts "4002" && hasAccount s.accounts "5001"

/-- The accounting equation as `getBalanceSheet` reads it: assets
(Cash + Accounts Receivable + Inventory) equal liabilities (Accounts
Payable) plus equity (Share Capital). -/
def accountingEquationHolds (s : MemStorage) : Prop :=
  s.balanceOf "1001" + s.balanceOf "1002" + s.balanceOf "1003" =
    s.balanceOf "2001" + s.balanceOf "3001"

/-- Total debit amount over a list of journal entries. -/
def entriesDebitTotal (l : List JournalEntry) : ℚ :=
  (l.map (fun e => e.debitAmount)).sum

/-- Total credit amount over a list of journal entries. -/
def entriesCreditTotal (l : List JournalEntry) : ℚ :=
  (l.map (fun e => e.creditAmount)).sum

/-- The journal entries tagged with a transaction id. -/
def txnEntries (l : List JournalEntry) (tid : Nat) : List JournalEntry :=
  l.filter (fun e => e.transactionId == some tid)

/-- Every stored transaction's tagged entries balance: debit total
equals credit total. -/
def transactionsBalanced (s : MemStorage) : Prop :=
  ∀ t ∈ s.transactions,
    entriesDebitTotal (txnEntries s.journalEntries t.id) =
      entriesCreditTotal (txnEntries s.journalEntries t.id)

/-- Bookkeeping invariant: all stored transaction ids, and all
transaction ids referenced by journal entries, lie below the counter. -/
def journalIdsFresh (s : MemStorage) : Prop :=
  (∀ t ∈ s.transactions, t.id < s.currentTransactionId) ∧
  (∀ e ∈ s.journalEntries, ∀ tid, e.transactionId = some tid →
    tid < s.currentTransactionId)

/-- Combined journal invariant carried through the event induction. -/
def journalInv (s : MemStorage) : Prop :=
  journalIdsFresh s ∧ transactionsBalanced s

/-- Modelled from the spec: the derived status rule of §3 — status is
a pure function of outstandingAmount: 0 yields paid, strictly between 0
and totalAmount yields partial, otherwise open. -/
def specStatus (outstanding total : ℚ) : String :=
  if outstanding = 0 then "paid"
  else if 0 < outstanding ∧ outstanding < total then "partial"
  else "open"

/-- Consistency of one invoice: payment fields add up, paid amount is
non-negative, the total is positive, and the stored status matches the
spec's derived rule. -/
def invoiceConsistent (inv : SalesInvoice) : Prop :=
  inv.paidAmount.getD 0 + inv.outstandingAmount = inv.totalAmount ∧
  0 ≤ inv.paidAmount.getD 0 ∧ 0 < inv.totalAmount ∧
  inv.status = specStatus inv.outstandingAmount inv.totalAmount

/-- Every stored invoice is consistent. -/
def invoicesConsistent (s : MemStorage) : Prop :=
  ∀ inv ∈ s.salesInvoices, invoiceConsistent inv

/-- A small concrete cash sale used to exhibit reachable states: one
item, quantity 1, unit price 2, unit cost 1. -/
def tinySale : SaleInput :=
  { invoiceNumber := "I1", customerName := "A", date := "2025-01-01",
    paymentMethod := "cash",
    items := [ { description := "w", quantity := 1, unitPrice := 2, cogsUnit := 1 } ] }

/-- The invoice `tinySale` creates. -/
def tinyInvoice : SalesInvoice :=
  { id := 1, invoiceNumber := "I1", customerName := "A", date := "2025-01-01",
    paymentMethod := "cash", totalAmount := 2, paidAmount := some 2,
    outstandingAmount := 0, status := "paid" }

/-- The transaction `tinySale` creates. -/
def tinyTransaction : Transaction :=
  { id := 1, date := "2025-01-01", reference := "I1",
    description := "Sale to A", type := "sale", totalAmount := 2 }

/-- The cash-sale scenario of spec §8: customer "Acme", cash, one item
with quantity 2, unit price 100, unit cost 40. -/
def acmeCashSale : SaleInput :=
  { invoiceNumber := "INV-001", customerName := "Acme", date := "2025-01-01",
    paymentMethod := "cash",
    items := [ { description := "Widget", quantity := 2, unitPrice := 100, cogsUnit := 40 } ] }

/-- A credit invoice with 100 outstanding, used to exercise the
collection guard and the return postings. -/
def openInvoice : SalesInvoice :=
  { id := 1, invoiceNumber := "INV-100", customerName := "B", date := "2025-01-02",
    paymentMethod := "credit", totalAmount := 100, paidAmount := some 0,
    outstandingAmount := 100, status := "open" }

/-- A store holding `openInvoice`. -/
def storeWithOpenInvoice : MemStorage :=
  { MemStorage.init with salesInvoices := [openInvoice], currentSalesInvoiceId := 2 }

/-- A collection of 150 against invoice 1 — more than its 100
outstanding. -/
def exceedingCollection : CollectionInput :=
  { invoiceId := 1, date := "2025-01-03", amount := 150,
    paymentMethod := "cash", notes := none }

/-- A small concrete sales return against invoice 1. -/
def tinyReturn : ReturnInput :=
  { returnNumber := "R1", invoiceId := 1, date := "2025-01-04",
    returnType := "return", reason := none,
    items := [ { description := "w", quantity := 1, unitPrice := 1, cogsUnit := 1 } ] }

/-- A one-line journal batch whose debit total exceeds its credit total
by 100 — far beyond the 0.01 tolerance. -/
def unbalancedInsert : InsertJournalEntry :=
  { transactionId := none, accountId := none, accountCode := "1001",
    accountName := "Cash", debitAmount := some 100, creditAmount := some 0,
    date := "2025-01-01", reference := "TEST", description := "unbalanced batch" }

/-! Infrastructure lemmas about the embedded operations. -/

/-- String boolean equality agrees with decidable propositional
equality (definitionally, for the core instances). -/
theorem string_beq_eq_decide (a b : String) : (a == b) = decide (a = b) := rfl

@[simp] theorem balOf_nil (c : String) : balOf [] c = 0 := rfl

@[simp] theorem hasAccount_nil (c : String) : hasAccount [] c = false := rfl

@[simp] theorem balOf_cons (a : Account) (l : List Account) (c : String) :
    balOf (a :: l) c = if a.code = c then a.balance else balOf l c := by
  by_cases h : a.code = c <;>
    simp [balOf, List.find?, string_beq_eq_decide, h]

@[simp] theorem hasAccount_cons (a : Account) (l : List Account) (c : String) :
    hasAccount (a :: l) c = if a.code = c then true else hasAccount l c := by
  by_cases h : a.code = c <;>
    simp [hasAccount, List.find?, string_beq_eq_decide, h]

theorem setBalanceByCode_nil (code : String) (v : ℚ) :
    setBalanceByCode [] code v = [] := rfl

/-- Updating a balance never changes which codes are present. -/
@[simp] theorem hasAccount_setBalance (l : List Account) (code : String) (v : ℚ)
    (c : String) : hasAccount (setBalanceByCode l code v) c = hasAccount l c := by
  induction l with
  | nil => rfl
  | cons a rest ih =>
    by_cases h : a.code = code <;>
      simp [setBalanceByCode, string_beq_eq_decide, h, ih]

/-- How a balance read sees a balance write: the written value exactly
when reading the written code and an account with it exists, otherwise
the old value. -/
@[simp] theorem balOf_setBalance (l : List Account) (code : String) (v : ℚ)
    (c : String) :
    balOf (setBalanceByCode l code v) c =
      if c = code ∧ hasAccount l code = true then v else balOf l c := by
  induction l with
  | nil => simp [setBalanceByCode]
  | cons a rest ih =>
    by_cases h : a.code = code
    · subst h
      by_cases hc : c = a.code
      · subst hc
        simp [setBalanceByCode, string_beq_eq_decide]
      · simp [setBalanceByCode, string_beq_eq_decide, hc, Ne.symm hc]
    · by_cases hac : a.code = c
      · have hc : ¬ c = code := fun hh => h (hac.trans hh)
        simp [setBalanceByCode, string_beq_eq_decide, h, hac, hc]
      · simp [setBalanceByCode, string_beq_eq_decide, h, hac, ih]

@[simp] theorem balanceOf_updateAccountBalance (s : MemStorage) (code : String)
    (v : ℚ) (c : String) :
    (s.updateAccountBalance code v).balanceOf c =
      if c = code ∧ hasAccount s.accounts code = true then v else s.balanceOf c := by
  simp [MemStorage.updateAccountBalance, MemStorage.balanceOf]

@[simp] theorem accounts_updateAccountBalance_hasAccount (s : MemStorage)
    (code : String) (v : ℚ) (c : String) :
    hasAccount (s.updateAccountBalance code v).accounts c = hasAccount s.accounts c := by
  simp [MemStorage.updateAccountBalance]

/-- When no account carries the code, the balance write is a no-op. -/
theorem setBalanceByCode_of_not_hasAccount (l : List Account) (code : String)
    (v : ℚ) (h : hasAccount l code = false) : setBalanceByCode l code v = l := by
  induction l with
  | nil => rfl
  | cons a rest ih =>
    by_cases hc : a.code = code
    · simp [hc] at h
    · simp [hc] at h
      simp [setBalanceByCode, string_beq_eq_decide, hc, ih h]

/-- When the code is present, the write lands: reading it back at the
written code yields the written value. -/
theorem balOf_setBalance_self (l : List Account) (code : String) (v : ℚ)
    (h : hasAccount l code = true) : balOf (setBalanceByCode l code v) code = v := by
  simp [h]

/-- Characterization of the journal append loop: it returns exactly the
built entries, appends them to the journal, and advances the counter by
the batch length — nothing else changes, and no batch is rejected. -/
theorem createJournalEntries_eq (s : MemStorage) (es : List InsertJournalEntry) :
    s.createJournalEntries es =
      (mkJournalEntries s.currentJournalEntryId es,
       { s with journalEntries := s.journalEntries ++ mkJournalEntries s.currentJournalEntryId es,
                currentJournalEntryId := s.currentJournalEntryId + es.length }) := by
  induction es generalizing s with
  | nil => simp [MemStorage.createJournalEntries, mkJournalEntries]
  | cons e rest ih =>
    simp [MemStorage.createJournalEntries, MemStorage.createJournalEntry,
      mkJournalEntries, ih, List.append_assoc]
    omega

/-- Characterization of the sale-items loop: it only appends the built
items and advances the item counter. -/
theorem createSaleItemRecords_eq (invoiceId : Nat) (s : MemStorage)
    (items : List SaleItemInput) :
    createSaleItemRecords invoiceId s items =
      { s with salesItems := s.salesItems ++ mkSalesItems s.currentSalesItemId invoiceId items,
               currentSalesItemId := s.currentSalesItemId + items.length } := by
  induction items generalizing s with
  | nil => simp [createSaleItemRecords, mkSalesItems]
  | cons item rest ih =>
    simp [createSaleItemRecords, MemStorage.createSalesItem, mkSalesItems, ih,
      List.append_assoc]
    omega

/-- Characterization of the return-items loop. -/
theorem createReturnItemRecords_eq (returnId : Nat) (s : MemStorage)
    (items : List SaleItemInput) :
    createReturnItemRecords returnId s items =
      { s with returnItems := s.returnItems ++ mkReturnItems s.currentReturnItemId returnId items,
               currentReturnItemId := s.currentReturnItemId + items.length } := by
  induction items generalizing s with
  | nil => simp [createReturnItemRecords, mkReturnItems]
  | cons item rest ih =>
    simp [createReturnItemRecords, MemStorage.createReturnItem, mkReturnItems, ih,
      List.append_assoc]
    omega

@[simp] theorem accounts_updateAccountBalance (s : MemStorage) (c : String)
    (v : ℚ) : (s.updateAccountBalance c v).accounts = setBalanceByCode s.accounts c v := rfl

@[simp] theorem updateAccountBalance_transactions (s : MemStorage) (c : String)
    (v : ℚ) : (s.updateAccountBalance c v).transactions = s.transactions := rfl

@[simp] theorem updateAccountBalance_journalEntries (s : MemStorage) (c : String)
    (v : ℚ) : (s.updateAccountBalance c v).journalEntries = s.journalEntries := rfl

@[simp] theorem updateAccountBalance_salesInvoices (s : MemStorage) (c : String)
    (v : ℚ) : (s.updateAccountBalance c v).salesInvoices = s.salesInvoices := rfl

@[simp] theorem updateAccountBalance_currentTransactionId (s : MemStorage)
    (c : String) (v : ℚ) :
    (s.updateAccountBalance c v).currentTransactionId = s.currentTransactionId := rfl

@[simp] theorem updateSalesInvoicePayment_transactions (s : MemStorage) (id : Nat)
    (p o : ℚ) (st : String) :
    (s.updateSalesInvoicePayment id p o st).transactions = s.transactions := rfl

@[simp] theorem updateSalesInvoicePayment_journalEntries (s : MemStorage) (id : Nat)
    (p o : ℚ) (st : String) :
    (s.updateSalesInvoicePayment id p o st).journalEntries = s.journalEntries := rfl

@[simp] theorem updateSalesInvoicePayment_currentTransactionId (s : MemStorage)
    (id : Nat) (p o : ℚ) (st : String) :
    (s.updateSalesInvoicePayment id p o st).currentTransactionId = s.currentTransactionId := rfl

@[simp] theorem updateSalesInvoicePayment_balanceOf (s : MemStorage) (id : Nat)
    (p o : ℚ) (st : String) (c : String) :
    (s.updateSalesInvoicePayment id p o st).balanceOf c = s.balanceOf c := rfl

@[simp] theorem updateSalesInvoicePayment_hasAccount (s : MemStorage) (id : Nat)
    (p o : ℚ) (st : String) (c : String) :
    hasAccount (s.updateSalesInvoicePayment id p o st).accounts c = hasAccount s.accounts c := rfl

/-- Processing one event never changes which account codes exist: the
handlers only write balances of existing accounts, never create one. -/
theorem hasAccount_step (s : MemStorage) (e : Event) (c : String) :
    hasAccount (step s e).accounts c = hasAccount s.accounts c := by
  cases e with
  | sale d =>
    by_cases hv : d.valid = true
    · by_cases hpm : (d.paymentMethod == "cash") = true <;>
        simp [step, postSale, hv, hpm, MemStorage.createSalesInvoice,
          createSaleItemRecords_eq, MemStorage.createTransaction,
          createJournalEntries_eq]
    · simp [step, postSale, hv]
  | collection d =>
    by_cases hv : d.valid = true
    · cases hfind : s.getSalesInvoiceById d.invoiceId with
      | none => simp [step, postCollection, hv, hfind]
      | some invoice =>
        by_cases hg : invoice.outstandingAmount < d.amount
        · simp [step, postCollection, hv, hfind, hg]
        · simp [step, postCollection, hv, hfind, hg,
            MemStorage.createCollection, MemStorage.createTransaction,
            createJournalEntries_eq, MemStorage.updateSalesInvoicePayment]
    · simp [step, postCollection, hv]
  | salesReturn d =>
    by_cases hv : d.valid = true
    · cases hfind : s.getSalesInvoiceById d.invoiceId with
      | none => simp [step, postReturn, hv, hfind]
      | some invoice =>
        by_cases hpm : (invoice.paymentMethod == "cash") = true <;>
          simp [step, postReturn, hv, hfind, hpm,
            MemStorage.createSalesReturn, createReturnItemRecords_eq,
            MemStorage.createTransaction, createJournalEntries_eq]
    · simp [step, postReturn, hv]

/-- Chart presence is invariant under events. -/
theorem hasChart_step (s : MemStorage) (e : Event) :
    HasChart (step s e) = HasChart s := by
  simp [HasChart, hasAccount_step]

/-- Every event preserves the accounting equation: the asset-side and
the equity-side deltas of each posting rule cancel exactly. -/
theorem accEq_step (s : MemStorage) (e : Event) (hc : HasChart s = true)
    (h : accountingEquationHolds s) : accountingEquationHolds (step s e) := by
  simp only [HasChart, Bool.and_eq_true] at hc
  obtain ⟨⟨⟨⟨⟨⟨⟨h1001, h1002⟩, h1003⟩, h2001⟩, h3001⟩, h4001⟩, h4002⟩, h5001⟩ := hc
  cases e with
  | sale d =>
    by_cases hv : d.valid = true
    · by_cases hpm : (d.paymentMethod == "cash") = true <;>
        · simp [step, postSale, hv, hpm, MemStorage.createSalesInvoice,
            createSaleItemRecords_eq, MemStorage.createTransaction,
            createJournalEntries_eq, accountingEquationHolds,
            MemStorage.balanceOf, h1001, h1002, h1003, h3001, h4001, h5001] at h ⊢
          linarith [h]
    · simpa [step, postSale, hv] using h
  | collection d =>
    by_cases hv : d.valid = true
    · cases hfind : s.getSalesInvoiceById d.invoiceId with
      | none => simpa [step, postCollection, hv, hfind] using h
      | some invoice =>
        by_cases hg : invoice.outstandingAmount < d.amount
        · simpa [step, postCollection, hv, hfind, hg] using h
        · simp [step, postCollection, hv, hfind, hg,
            MemStorage.createCollection, MemStorage.createTransaction,
            createJournalEntries_eq, MemStorage.updateSalesInvoicePayment,
            accountingEquationHolds, MemStorage.balanceOf,
            h1001, h1002] at h ⊢
          linarith [h]
    · simpa [step, postCollection, hv] using h
  | salesReturn d =>
    by_cases hv : d.valid = true
    · cases hfind : s.getSalesInvoiceById d.invoiceId with
      | none => simpa [step, postReturn, hv, hfind] using h
      | some invoice =>
        by_cases hpm : (invoice.paymentMethod == "cash") = true <;>
          · simp [step, postReturn, hv, hfind, hpm,
              MemStorage.createSalesReturn, createReturnItemRecords_eq,
              MemStorage.createTransaction, createJournalEntries_eq,
              accountingEquationHolds, MemStorage.balanceOf,
              h1001, h1002, h1003, h3001, h4002, h5001] at h ⊢
            linarith [h]
    · simpa [step, postReturn, hv] using h

/-- Any property preserved by single events holds at every state
reached by folding events over a state satisfying it. -/
theorem foldl_step_inv (P : MemStorage → Prop)
    (hstep : ∀ s e, P s → P (step s e)) :
    ∀ (es : List Event) (s : MemStorage), P s → P (es.foldl step s) := by
  intro es
  induction es with
  | nil => intro s hs; simpa using hs
  | cons e rest ih =>
    intro s hs
    simpa [List.foldl_cons] using ih (step s e) (hstep s e hs)

/-- The fresh store carries the full chart. -/
theorem hasChart_init : HasChart MemStorage.init = true := by decide

/-- The accounting equation holds in the fresh store:
2375000 + 0 + 450000 = 0 + 2825000. -/
theorem accEq_init : accountingEquationHolds MemStorage.init := by
  simp [accountingEquationHolds, MemStorage.balanceOf, MemStorage.init,
    initialAccounts]
  norm_num

/-- Chart presence and the accounting equation hold at every reachable
state. -/
theorem accEq_run (es : List Event) :
    HasChart (run es) = true ∧ accountingEquationHolds (run es) := by
  refine foldl_step_inv
    (fun s => HasChart s = true ∧ accountingEquationHolds s)
    (fun s e hs => ?_) es MemStorage.init ⟨hasChart_init, accEq_init⟩
  exact ⟨(hasChart_step s e).trans hs.1, accEq_step s e hs.1 hs.2⟩

@[simp] theorem entriesDebitTotal_append (l₁ l₂ : List JournalEntry) :
    entriesDebitTotal (l₁ ++ l₂) = entriesDebitTotal l₁ + entriesDebitTotal l₂ := by
  simp [entriesDebitTotal]

@[simp] theorem entriesCreditTotal_append (l₁ l₂ : List JournalEntry) :
    entriesCreditTotal (l₁ ++ l₂) = entriesCreditTotal l₁ + entriesCreditTotal l₂ := by
  simp [entriesCreditTotal]

@[simp] theorem txnEntries_append (l₁ l₂ : List JournalEntry) (tid : Nat) :
    txnEntries (l₁ ++ l₂) tid = txnEntries l₁ tid ++ txnEntries l₂ tid := by
  simp [txnEntries]

/-- Appending one transaction together with a balanced batch of entries
tagged with its fresh id preserves the journal invariant. -/
theorem journalInv_append (s s' : MemStorage) (T : Transaction)
    (newE : List JournalEntry)
    (hT : s'.transactions = s.transactions ++ [T])
    (hE : s'.journalEntries = s.journalEntries ++ newE)
    (hid : T.id = s.currentTransactionId)
    (hcnt : s'.currentTransactionId = s.currentTransactionId + 1)
    (htid : ∀ e ∈ newE, e.transactionId = some T.id)
    (hbal : entriesDebitTotal newE = entriesCreditTotal newE)
    (hJ : journalInv s) : journalInv s' := by
  obtain ⟨⟨hft, hfe⟩, hb⟩ := hJ
  refine ⟨⟨?_, ?_⟩, ?_⟩
  · intro t ht
    rw [hT] at ht
    rw [hcnt]
    rcases List.mem_append.1 ht with h | h
    · exact Nat.lt_succ_of_lt (hft t h)
    · simp only [List.mem_singleton] at h
      subst h
      omega
  · intro e he tid htid'
    rw [hE] at he
    rw [hcnt]
    rcases List.mem_append.1 he with h | h
    · exact Nat.lt_succ_of_lt (hfe e h tid htid')
    · have := htid e h
      rw [this] at htid'
      have : tid = T.id := by
        exact (Option.some.injEq _ _ ▸ htid'.symm)
      omega
  · intro t ht
    rw [hT] at ht
    rw [hE]
    rcases List.mem_append.1 ht with h | h
    · have hnil : txnEntries newE t.id = [] := by
        refine List.filter_eq_nil_iff.2 ?_
        intro e he
        have hts := htid e he
        have hlt := hft t h
        simp [hts, Nat.beq_eq_true_eq]
        omega
      simp [hnil, hb t h]
    · simp only [List.mem_singleton] at h
      subst h
      have hnil : txnEntries s.journalEntries t.id = [] := by
        refine List.filter_eq_nil_iff.2 ?_
        intro e he
        cases hx : e.transactionId with
        | none => simp [txnEntries, hx]
        | some tid =>
          have := hfe e he tid hx
          simp [txnEntries, hx]
          omega
      have hall : txnEntries newE t.id = newE := by
        refine List.filter_eq_self.2 ?_
        intro e he
        simp [txnEntries, htid e he]
      simp [hnil, hall, hbal]

/-- Every event preserves the journal invariant: the three posting
rules each append one transaction and a balanced batch tagged with its
id. -/
theorem journalInv_step (s : MemStorage) (e : Event) (hJ : journalInv s) :
    journalInv (step s e) := by
  cases e with
  | sale d =>
    by_cases hv : d.valid = true
    · refine journalInv_append s _
        { id := s.currentTransactionId, date := d.date, reference := d.invoiceNumber,
          description := "Sale to " ++ d.customerName, type := "sale",
          totalAmount := (d.items.map (fun i => i.quantity * i.unitPrice)).sum }
        (mkJournalEntries s.currentJournalEntryId
          (saleJournalInserts s.currentTransactionId d
            (d.items.map (fun i => i.quantity * i.unitPrice)).sum
            (d.items.map (fun i => i.quantity * i.cogsUnit)).sum))
        ?_ ?_ rfl ?_ ?_ ?_ hJ <;>
        by_cases hpm : (d.paymentMethod == "cash") = true <;>
        · simp [step, postSale, hv, hpm, MemStorage.createSalesInvoice,
            createSaleItemRecords_eq, MemStorage.createTransaction,
            createJournalEntries_eq, mkJournalEntries, saleJournalInserts,
            buildJournalEntry, entriesDebitTotal, entriesCreditTotal]
          try ring
    · simpa [step, postSale, hv] using hJ
  | collection d =>
    by_cases hv : d.valid = true
    · cases hfind : s.getSalesInvoiceById d.invoiceId with
      | none => simpa [step, postCollection, hv, hfind] using hJ
      | some invoice =>
        by_cases hg : invoice.outstandingAmount < d.amount
        · simpa [step, postCollection, hv, hfind, hg] using hJ
        · refine journalInv_append s _
            { id := s.currentTransactionId, date := d.date,
              reference := "COL-" ++ invoice.invoiceNumber,
              description := "Collection from " ++ invoice.customerName,
              type := "collection", totalAmount := d.amount }
            (mkJournalEntries s.currentJournalEntryId
              (collectionJournalInserts s.currentTransactionId invoice d))
            ?_ ?_ rfl ?_ ?_ ?_ hJ <;>
            · simp [step, postCollection, hv, hfind, hg,
                MemStorage.createCollection, MemStorage.createTransaction,
                createJournalEntries_eq, MemStorage.updateSalesInvoicePayment,
                mkJournalEntries, collectionJournalInserts, buildJournalEntry,
                entriesDebitTotal, entriesCreditTotal]
    · simpa [step, postCollection, hv] using hJ
  | salesReturn d =>
    by_cases hv : d.valid = true
    · cases hfind : s.getSalesInvoiceById d.invoiceId with
      | none => simpa [step, postReturn, hv, hfind] using hJ
      | some invoice =>
        refine journalInv_append s _
          { id := s.currentTransactionId, date := d.date,
            reference := d.returnNumber,
            description := "Return from " ++ invoice.customerName,
            type := "return",
            totalAmount := (d.items.map (fun i => i.quantity * i.unitPrice)).sum }
          (mkJournalEntries s.currentJournalEntryId
            (returnJournalInserts s.currentTransactionId invoice d
              (d.items.map (fun i => i.quantity * i.unitPrice)).sum
              (d.items.map (fun i => i.quantity * i.cogsUnit)).sum))
          ?_ ?_ rfl ?_ ?_ ?_ hJ <;>
          by_cases hpm : (invoice.paymentMethod == "cash") = true <;>
          · simp [step, postReturn, hv, hfind, hpm,
              MemStorage.createSalesReturn, createReturnItemRecords_eq,
              MemStorage.createTransaction, createJournalEntries_eq,
              mkJournalEntries, returnJournalInserts, buildJournalEntry,
              entriesDebitTotal, entriesCreditTotal]
            try ring
    · simpa [step, postReturn, hv] using hJ

/-- The fresh store has no transactions and no journal entries. -/
theorem journalInv_init : journalInv MemStorage.init := by
  refine ⟨⟨?_, ?_⟩, ?_⟩ <;>
    simp [MemStorage.init, transactionsBalanced, journalIdsFresh]

/-- The journal invariant holds at every reachable state. -/
theorem journalInv_run (es : List Event) : journalInv (run es) :=
  foldl_step_inv journalInv journalInv_step es MemStorage.init journalInv_init

/-- Any member of the list after a payment update is either an original
invoice or the payment-updated image of the first invoice carrying the
id. -/
theorem mem_setInvoicePayment (l : List SalesInvoice) (id : Nat) (p o : ℚ)
    (st : String) (x : SalesInvoice) (hx : x ∈ setInvoicePayment l id p o st) :
    x ∈ l ∨ ∃ inv, l.find? (fun i => i.id == id) = some inv ∧
      x = { inv with paidAmount := some p, outstandingAmount := o, status := st } := by
  induction l with
  | nil => simp [setInvoicePayment] at hx
  | cons a rest ih =>
    by_cases h : (a.id == id) = true
    · simp only [setInvoicePayment, h, if_true, List.mem_cons] at hx
      rcases hx with hx | hx
      · right
        exact ⟨a, by simp [List.find?, h], hx⟩
      · left
        exact List.mem_cons_of_mem a hx
    · simp only [setInvoicePayment, h, if_false, Bool.false_eq_true, List.mem_cons] at hx
      rcases hx with hx | hx
      · left
        simp [hx]
      · rcases ih hx with hmem | ⟨inv, hfind, hx'⟩
        · left
          exact List.mem_cons_of_mem a hmem
        · right
          refine ⟨inv, ?_, hx'⟩
          simp [List.find?, h, hfind]

/-- A valid sale's aggregated amount is positive: at least one item,
each contributing a positive quantity × unitPrice. -/
theorem sale_amount_pos (d : SaleInput) (hv : d.valid = true) :
    0 < (d.items.map (fun i => i.quantity * i.unitPrice)).sum := by
  simp only [SaleInput.valid, Bool.and_eq_true, decide_eq_true_eq,
    List.all_eq_true] at hv
  obtain ⟨⟨⟨⟨hn1, hn2⟩, hpm⟩, hlen⟩, hall⟩ := hv
  cases hits : d.items with
  | nil => rw [hits] at hlen; simp at hlen
  | cons i rest =>
    simp only [List.map_cons, List.sum_cons]
    have hi := hall i (by rw [hits]; exact List.mem_cons_self i rest)
    simp only [SaleItemInput.valid, Bool.and_eq_true, decide_eq_true_eq] at hi
    have hpos : 0 < i.quantity * i.unitPrice := mul_pos hi.1.1.2 hi.1.2
    have hrest : 0 ≤ (rest.map (fun i => i.quantity * i.unitPrice)).sum := by
      refine List.sum_nonneg ?_
      intro x hxm
      obtain ⟨j, hj, rfl⟩ := List.mem_map.1 hxm
      have hjv := hall j (by rw [hits]; exact List.mem_cons_of_mem i hj)
      simp only [SaleItemInput.valid, Bool.and_eq_true, decide_eq_true_eq] at hjv
      exact le_of_lt (mul_pos hjv.1.1.2 hjv.1.2)
    linarith

/-- Processing a sales return never changes the stored invoices. -/
theorem salesInvoices_step_salesReturn (s : MemStorage) (d : ReturnInput) :
    (step s (.salesReturn d)).salesInvoices = s.salesInvoices := by
  by_cases hv : d.valid = true
  · cases hfind : s.getSalesInvoiceById d.invoiceId with
    | none => simp [step, postReturn, hv, hfind]
    | some invoice =>
      by_cases hpm : (invoice.paymentMethod == "cash") = true <;>
        simp [step, postReturn, hv, hfind, hpm, MemStorage.createSalesReturn,
          createReturnItemRecords_eq, MemStorage.createTransaction,
          createJournalEntries_eq]
  · simp [step, postReturn, hv]

/-- Every event preserves invoice consistency: sales create consistent
invoices, collections move value from outstanding to paid keeping the
derived status, returns leave invoices alone. -/
theorem invoicesConsistent_step (s : MemStorage) (e : Event)
    (hS : invoicesConsistent s) : invoicesConsistent (step s e) := by
  cases e with
  | sale d =>
    by_cases hv : d.valid = true
    · have hpos := sale_amount_pos d hv
      by_cases hpm : (d.paymentMethod == "cash") = true <;>
      · intro inv hinv
        simp [step, postSale, hv, hpm, MemStorage.createSalesInvoice,
          createSaleItemRecords_eq, MemStorage.createTransaction,
          createJournalEntries_eq] at hinv
        rcases hinv with hinv | hinv
        · exact hS inv hinv
        · subst hinv
          refine ⟨by simp, by simp [le_of_lt hpos], by simpa using hpos, ?_⟩
          simp [specStatus, hpos.ne', lt_irrefl]
    · simpa [step, postSale, hv] using hS
  | collection d =>
    by_cases hv : d.valid = true
    · cases hfind : s.getSalesInvoiceById d.invoiceId with
      | none => simpa [step, postCollection, hv, hfind] using hS
      | some invoice =>
        by_cases hg : invoice.outstandingAmount < d.amount
        · simpa [step, postCollection, hv, hfind, hg] using hS
        · have ha : 0 < d.amount := by
            simpa [CollectionInput.valid] using hv
          have hmemInv : invoice ∈ s.salesInvoices :=
            List.mem_of_find?_eq_some hfind
          obtain ⟨hsum, hpaid, htot, hstat⟩ := hS invoice hmemInv
          intro inv hinv
          simp [step, postCollection, hv, hfind, hg, MemStorage.createCollection,
            MemStorage.createTransaction, createJournalEntries_eq,
            MemStorage.updateSalesInvoicePayment] at hinv
          rcases mem_setInvoicePayment _ _ _ _ _ inv hinv with hmem | ⟨inv₀, hfind₀, hx⟩
          · exact hS inv hmem
          · have hinv₀ : inv₀ = invoice := by
              have h₁ : s.getSalesInvoiceById d.invoiceId = some inv₀ := hfind₀
              rw [hfind] at h₁
              exact (Option.some.inj h₁).symm
            subst hinv₀
            subst hx
            have hout : 0 ≤ inv₀.outstandingAmount - d.amount := by
              have := not_lt.1 hg
              linarith
            refine ⟨by simp; linarith, by simp; linarith, by simpa using htot, ?_⟩
            by_cases hz : inv₀.outstandingAmount - d.amount = 0
            · simp [hz, specStatus]
            · have h1 : 0 < inv₀.outstandingAmount - d.amount :=
                lt_of_le_of_ne hout (Ne.symm hz)
              have h2 : inv₀.outstandingAmount - d.amount < inv₀.totalAmount := by
                linarith
              simp [hz, specStatus, h1, h2]
    · simpa [step, postCollection, hv] using hS
  | salesReturn d =>
    intro inv hinv
    rw [salesInvoices_step_salesReturn] at hinv
    exact hS inv hinv

/-- The fresh store has no invoices. -/
theorem invoicesConsistent_init : invoicesConsistent MemStorage.init := by
  intro inv hinv
  simp [MemStorage.init] at hinv

/-- Invoice consistency holds at every reachable state. -/
theorem invoicesConsistent_run (es : List Event) : invoicesConsistent (run es) :=
  foldl_step_inv invoicesConsistent invoicesConsistent_step es MemStorage.init
    invoicesConsistent_init

theorem mkJournalEntries_length (n : Nat) (es : List InsertJournalEntry) :
    (mkJournalEntries n es).length = es.length := by
  induction es generalizing n with
  | nil => rfl
  | cons e rest ih => simp [mkJournalEntries, ih]

/-! Claim theorems. -/

set_option maxRecDepth 10000

/-- C1: after every processed business event (and hence at every
reachable state), the balance sheet satisfies totalAssets =
totalLiabilities + totalEquity, equivalently totalAssets =
totalLiabEquity, with totalAssets = cash + accountsReceivable +
inventory, totalLiabilities = accountsPayable, totalEquity =
shareCapital. -/
theorem C1_accounting_equation (es : List Event) :
    ((run es).getBalanceSheet).totalAssets =
      ((run es).getBalanceSheet).totalLiabilities +
        ((run es).getBalanceSheet).totalEquity ∧
    ((run es).getBalanceSheet).totalAssets =
      ((run es).getBalanceSheet).totalLiabEquity := by
  have h := (accEq_run es).2
  unfold accountingEquationHolds at h
  constructor <;> simp [MemStorage.getBalanceSheet] <;> linarith [h]

/-- C2 counterexample: the one-entry batch `unbalancedInsert` has debit
total 100 and credit total 0 — off balance by far more than 0.01 — yet
`createJournalEntries` persists it in full into an empty journal and
returns the created entry; no rejection of any kind occurs. -/
theorem C2_counterexample :
    entriesDebitTotal (MemStorage.init.createJournalEntries [unbalancedInsert]).1 = 100 ∧
    entriesCreditTotal (MemStorage.init.createJournalEntries [unbalancedInsert]).1 = 0 ∧
    ¬ (|(100 : ℚ) - 0| ≤ 1 / 100) ∧
    (MemStorage.init.createJournalEntries [unbalancedInsert]).2.journalEntries =
      (MemStorage.init.createJournalEntries [unbalancedInsert]).1 := by
  refine ⟨?_, ?_, by norm_num, ?_⟩ <;>
    norm_num [MemStorage.createJournalEntries, MemStorage.createJournalEntry,
      buildJournalEntry, entriesDebitTotal, entriesCreditTotal,
      unbalancedInsert, MemStorage.init]

/-- C2 amended: `createJournalEntries` performs no balance check at
all — it persists every entry of every batch, balanced or not,
appending exactly the created entries to the journal. -/
theorem C2_no_balance_guard (s : MemStorage) (entries : List InsertJournalEntry) :
    (s.createJournalEntries entries).2.journalEntries =
      s.journalEntries ++ (s.createJournalEntries entries).1 ∧
    (s.createJournalEntries entries).1.length = entries.length := by
  rw [createJournalEntries_eq]
  exact ⟨rfl, mkJournalEntries_length _ _⟩

/-- C3: for every transaction stored at a reachable state — each
created by submitting a sale, collection, or sales return — the debit
amounts of the journal entries tagged with its id sum to exactly the
same value as their credit amounts (exact equality, hence within the
0.01 tolerance). -/
theorem C3_transaction_balanced (es : List Event) (t : Transaction)
    (ht : t ∈ (run es).transactions) :
    entriesDebitTotal (txnEntries (run es).journalEntries t.id) =
      entriesCreditTotal (txnEntries (run es).journalEntries t.id) :=
  (journalInv_run es).2 t ht

theorem C3_witness :
    entriesDebitTotal (txnEntries (run [Event.sale tinySale]).journalEntries
        tinyTransaction.id) =
      entriesCreditTotal (txnEntries (run [Event.sale tinySale]).journalEntries
        tinyTransaction.id) :=
  C3_transaction_balanced [Event.sale tinySale] tinyTransaction
    (by with_unfolding_all decide)

/-- C4: a collection whose amount exceeds the referenced invoice's
outstanding amount is rejected with the exceeds-outstanding error, and
the store after the rejected request is the very store it was given —
no collection record, transaction, journal entry, balance change or
invoice change. -/
theorem C4_collection_exceeding_rejected (s : MemStorage) (d : CollectionInput)
    (invoice : SalesInvoice) (hv : d.valid = true)
    (hfind : s.getSalesInvoiceById d.invoiceId = some invoice)
    (hexceeds : invoice.outstandingAmount < d.amount) :
    postCollection s d = .error .exceedsOutstanding ∧
    step s (.collection d) = s := by
  constructor <;> simp [postCollection, step, hv, hfind, hexceeds]

theorem C4_witness :
    postCollection storeWithOpenInvoice exceedingCollection =
      .error .exceedsOutstanding ∧
    step storeWithOpenInvoice (.collection exceedingCollection) =
      storeWithOpenInvoice :=
  C4_collection_exceeding_rejected storeWithOpenInvoice exceedingCollection
    openInvoice (by decide) (by decide) (by decide)

/-- C5: every invoice stored at a reachable state — after invoice
creation and after every collection applied to it — satisfies
paidAmount + outstandingAmount = totalAmount exactly, and its status is
the spec's pure function of outstandingAmount (0 yields paid, strictly
between 0 and totalAmount yields partial, otherwise open). -/
theorem C5_invoice_consistency (es : List Event) (inv : SalesInvoice)
    (hinv : inv ∈ (run es).salesInvoices) :
    inv.paidAmount.getD 0 + inv.outstandingAmount = inv.totalAmount ∧
    inv.status = specStatus inv.outstandingAmount inv.totalAmount := by
  obtain ⟨h1, _, _, h4⟩ := invoicesConsistent_run es inv hinv
  exact ⟨h1, h4⟩

theorem C5_witness :
    tinyInvoice.paidAmount.getD 0 + tinyInvoice.outstandingAmount =
      tinyInvoice.totalAmount ∧
    tinyInvoice.status = specStatus tinyInvoice.outstandingAmount
      tinyInvoice.totalAmount :=
  C5_invoice_consistency [Event.sale tinySale] tinyInvoice
    (by with_unfolding_all decide)

/-- C8 counterexample: calling the balance mutator with the unknown
code "9999" does not fail in any way — `updateAccountBalance` is total
and returns with the fresh store completely unchanged, refuting the
claimed UnknownAccountError. -/
theorem C8_counterexample :
    MemStorage.init.getAccountByCode "9999" = none ∧
    MemStorage.init.updateAccountBalance "9999" 5 = MemStorage.init := by
  constructor
  · decide
  · decide

/-- C8 amended: `updateAccountBalance` silently does nothing when the
code has no matching account (no error of any kind), and for every
known code it sets the first matching account's balance to the given
value. -/
theorem C8_update_balance_semantics (s : MemStorage) (code : String) (v : ℚ) :
    (hasAccount s.accounts code = false → s.updateAccountBalance code v = s) ∧
    (hasAccount s.accounts code = true →
      (s.updateAccountBalance code v).balanceOf code = v) := by
  constructor
  · intro h
    simp [MemStorage.updateAccountBalance,
      setBalanceByCode_of_not_hasAccount s.accounts code v h]
  · intro h
    simp [h]

theorem C8_witness :
    MemStorage.init.updateAccountBalance "9999" 5 = MemStorage.init ∧
    (MemStorage.init.updateAccountBalance "1001" 7).balanceOf "1001" = 7 :=
  ⟨(C8_update_balance_semantics MemStorage.init "9999" 5).1 (by decide),
   (C8_update_balance_semantics MemStorage.init "1001" 7).2 (by decide)⟩

/-- C9: processing a sales return — accepted or rejected — leaves the
stored invoices identical, so no invoice's paidAmount,
outstandingAmount or status ever changes through a return. -/
theorem C9_returns_never_touch_invoices (s : MemStorage) (d : ReturnInput) :
    (step s (.salesReturn d)).salesInvoices = s.salesInvoices :=
  salesInvoices_step_salesReturn s d

/-- C10: the freshly constructed store is seeded with exactly eight
accounts; Cash holds 2375000, Inventory 450000 and Share Capital
2825000 while the other five are zero, so the opening balance sheet
already satisfies the accounting equation at 2825000. -/
theorem C10_initial_chart :
    MemStorage.init.accounts.length = 8 ∧
    MemStorage.init.balanceOf "1001" = 2375000 ∧
    MemStorage.init.balanceOf "1002" = 0 ∧
    MemStorage.init.balanceOf "1003" = 450000 ∧
    MemStorage.init.balanceOf "2001" = 0 ∧
    MemStorage.init.balanceOf "3001" = 2825000 ∧
    MemStorage.init.balanceOf "4001" = 0 ∧
    MemStorage.init.balanceOf "4002" = 0 ∧
    MemStorage.init.balanceOf "5001" = 0 ∧
    (MemStorage.init.getBalanceSheet).totalAssets = 2825000 ∧
    (MemStorage.init.getBalanceSheet).totalLiabilities +
      (MemStorage.init.getBalanceSheet).totalEquity = 2825000 ∧
    (MemStorage.init.getBalanceSheet).totalAssets =
      (MemStorage.init.getBalanceSheet).totalLiabEquity := by
  refine ⟨rfl, rfl, rfl, rfl, rfl, rfl, rfl, rfl, rfl, ?_, ?_, ?_⟩ <;>
    simp [MemStorage.getBalanceSheet, MemStorage.balanceOf, MemStorage.init,
      initialAccounts] <;>
    norm_num

/-- C6: submitting the cash sale "Acme", one item of quantity 2, unit
price 100, unit cost 40, against any store carrying the chart, changes
the balances by exactly Cash +200, Inventory −80, Sales Revenue +200,
Cost of Goods Sold +80 and Share Capital +120 (the net-income roll-up,
written directly to the account: no appended journal line touches
3001), leaves Accounts Receivable alone, and creates the invoice with
status "paid" and outstandingAmount 0. -/
theorem C6_cash_sale_scenario (s : MemStorage) (hc : HasChart s = true) :
    ∃ s' inv, postSale s acmeCashSale = .ok (s', inv) ∧
      s'.balanceOf "1001" = s.balanceOf "1001" + 200 ∧
      s'.balanceOf "1002" = s.balanceOf "1002" ∧
      s'.balanceOf "1003" = s.balanceOf "1003" - 80 ∧
      s'.balanceOf "4001" = s.balanceOf "4001" + 200 ∧
      s'.balanceOf "5001" = s.balanceOf "5001" + 80 ∧
      s'.balanceOf "3001" = s.balanceOf "3001" + 120 ∧
      (∀ e ∈ s'.journalEntries, e ∈ s.journalEntries ∨ e.accountCode ≠ "3001") ∧
      inv.status = "paid" ∧ inv.outstandingAmount = 0 := by
  have hv : acmeCashSale.valid = true := by decide
  have hpm : acmeCashSale.paymentMethod = "cash" := rfl
  have hitems : acmeCashSale.items =
      [ { description := "Widget", quantity := 2, unitPrice := 100, cogsUnit := 40 } ] := rfl
  simp only [HasChart, Bool.and_eq_true] at hc
  obtain ⟨⟨⟨⟨⟨⟨⟨h1001, h1002⟩, h1003⟩, h2001⟩, h3001⟩, h4001⟩, h4002⟩, h5001⟩ := hc
  cases hps : postSale s acmeCashSale with
  | error err => simp [postSale, hv] at hps
  | ok p =>
    obtain ⟨s', inv⟩ := p
    simp only [postSale, hv, if_true, hpm, hitems, MemStorage.createSalesInvoice,
      createSaleItemRecords_eq, MemStorage.createTransaction,
      createJournalEntries_eq, mkJournalEntries, saleJournalInserts,
      buildJournalEntry, mkSalesItems, Except.ok.injEq, Prod.mk.injEq] at hps
    simp at hps
    obtain ⟨hs', hinv⟩ := hps
    subst hs'
    subst hinv
    refine ⟨_, _, rfl, ?_, ?_, ?_, ?_, ?_, ?_, ?_, by simp, by simp⟩
    · simp [MemStorage.balanceOf, h1001, h1002, h1003, h3001, h4001, h5001]
      norm_num
    · simp [MemStorage.balanceOf, h1001, h1002, h1003, h3001, h4001, h5001]
    · simp [MemStorage.balanceOf, h1001, h1002, h1003, h3001, h4001, h5001]
      norm_num
    · simp [MemStorage.balanceOf, h1001, h1002, h1003, h3001, h4001, h5001]
      norm_num
    · simp [MemStorage.balanceOf, h1001, h1002, h1003, h3001, h4001, h5001]
      norm_num
    · simp [MemStorage.balanceOf, h1001, h1002, h1003, h3001, h4001, h5001]
      norm_num
    · intro e he
      simp only [updateAccountBalance_journalEntries] at he
      rcases List.mem_append.1 he with h | h
      · exact Or.inl h
      · right
        simp at h
        rcases h with rfl | rfl | rfl | rfl <;> simp

theorem C6_witness :
    ∃ s' inv, postSale MemStorage.init acmeCashSale = .ok (s', inv) ∧
      s'.balanceOf "1001" = MemStorage.init.balanceOf "1001" + 200 ∧
      s'.balanceOf "1002" = MemStorage.init.balanceOf "1002" ∧
      s'.balanceOf "1003" = MemStorage.init.balanceOf "1003" - 80 ∧
      s'.balanceOf "4001" = MemStorage.init.balanceOf "4001" + 200 ∧
      s'.balanceOf "5001" = MemStorage.init.balanceOf "5001" + 80 ∧
      s'.balanceOf "3001" = MemStorage.init.balanceOf "3001" + 120 ∧
      (∀ e ∈ s'.journalEntries, e ∈ MemStorage.init.journalEntries ∨
        e.accountCode ≠ "3001") ∧
      inv.status = "paid" ∧ inv.outstandingAmount = 0 :=
  C6_cash_sale_scenario MemStorage.init (by decide)

/-- C7: a sales return against an existing invoice posts exactly four
journal lines — debit Sales Return and Allowances by the aggregated
return amount, credit Cash when the original invoice was paid cash and
Accounts Receivable otherwise, debit Inventory by the aggregated
return cost, credit Cost of Goods Sold by the same — and additionally
decreases the Share Capital balance directly (no journal line) by
returnAmount − returnCogs. -/
theorem C7_return_postings (s : MemStorage) (d : ReturnInput) (invoice : SalesInvoice)
    (hv : d.valid = true) (hfind : s.getSalesInvoiceById d.invoiceId = some invoice)
    (hc : HasChart s = true) :
    ∃ s' r, postReturn s d = .ok (s', r) ∧
      s'.journalEntries.map (fun e => (e.accountCode, e.debitAmount, e.creditAmount)) =
        s.journalEntries.map (fun e => (e.accountCode, e.debitAmount, e.creditAmount)) ++
          [ ("4002", (d.items.map (fun i => i.quantity * i.unitPrice)).sum, 0),
            ((if invoice.paymentMethod == "cash" then "1001" else "1002"), 0,
              (d.items.map (fun i => i.quantity * i.unitPrice)).sum),
            ("1003", (d.items.map (fun i => i.quantity * i.cogsUnit)).sum, 0),
            ("5001", 0, (d.items.map (fun i => i.quantity * i.cogsUnit)).sum) ] ∧
      s'.balanceOf "3001" = s.balanceOf "3001" -
        ((d.items.map (fun i => i.quantity * i.unitPrice)).sum -
          (d.items.map (fun i => i.quantity * i.cogsUnit)).sum) := by
  simp only [HasChart, Bool.and_eq_true] at hc
  obtain ⟨⟨⟨⟨⟨⟨⟨h1001, h1002⟩, h1003⟩, h2001⟩, h3001⟩, h4001⟩, h4002⟩, h5001⟩ := hc
  by_cases hpm : (invoice.paymentMethod == "cash") = true <;>
  · cases hps : postReturn s d with
    | error err => simp [postReturn, hv, hfind] at hps
    | ok p =>
      obtain ⟨s', r⟩ := p
      simp only [postReturn, hv, if_true, hfind, hpm, MemStorage.createSalesReturn,
        createReturnItemRecords_eq, MemStorage.createTransaction,
        createJournalEntries_eq, mkJournalEntries, returnJournalInserts,
        buildJournalEntry, Except.ok.injEq, Prod.mk.injEq] at hps
      simp at hps
      obtain ⟨hs', hr⟩ := hps
      subst hs'
      subst hr
      refine ⟨_, _, rfl, ?_, ?_⟩
      · simp [hpm]
      · simp [MemStorage.balanceOf, hpm, h1001, h1002, h1003, h3001, h4002, h5001]

theorem C7_witness :
    ∃ s' r, postReturn storeWithOpenInvoice tinyReturn = .ok (s', r) ∧
      s'.journalEntries.map (fun e => (e.accountCode, e.debitAmount, e.creditAmount)) =
        storeWithOpenInvoice.journalEntries.map
          (fun e => (e.accountCode, e.debitAmount, e.creditAmount)) ++
          [ ("4002", (tinyReturn.items.map (fun i => i.quantity * i.unitPrice)).sum, 0),
            ((if openInvoice.paymentMethod == "cash" then "1001" else "1002"), 0,
              (tinyReturn.items.map (fun i => i.quantity * i.unitPrice)).sum),
            ("1003", (tinyReturn.items.map (fun i => i.quantity * i.cogsUnit)).sum, 0),
            ("5001", 0, (tinyReturn.items.map (fun i => i.quantity * i.cogsUnit)).sum) ] ∧
      s'.balanceOf "3001" = storeWithOpenInvoice.balanceOf "3001" -
        ((tinyReturn.items.map (fun i => i.quantity * i.unitPrice)).sum -
          (tinyReturn.items.map (fun i => i.quantity * i.cogsUnit)).sum) :=
  C7_return_postings storeWithOpenInvoice tinyReturn openInvoice
    (by decide) (by decide) (by decide)

end Accounting
